import Mathlib

/-!
Verification of the docker_bot_collection replication scripts.

This file gives a shallow embedding, in Lean, of the orchestration core of the
two scripts `bananna_bot.py` (targeted mirror flow) and `sync_bot.py`
(bulk sync flow), together with `bananna_bot_config.py`.

Two levels of modelling are used:

* The retry loops (`run_docker`, `create_quay_repo`), the paginated directory
  client (`list_all_repositories`, `list_all_tags`) and the existence check
  (`image_exists_in_registry`) are embedded at the level of individual
  subprocess attempts: an oracle (`Nat → Outcome`, or `Nat → ApiPageResult`)
  gives the outcome of each attempt or page request, and the embedding
  reproduces the Python control flow over those outcomes.

* The orchestrators (`mirror_image`, `sync_image`) and run controllers are
  embedded one abstraction level up: every external invocation
  (one `run_docker` call, one `image_exists_in_registry` call, one
  `create_quay_repo` call) consumes one answer from a boolean environment
  oracle `Env : Nat → Bool`, and the embedding additionally records the
  sequence of external calls it makes (`List EngineCall`), so that claims of
  the form "no pull/tag/push happens" are statements about the recorded trace.
-/

set_option maxRecDepth 8000

namespace DockerBots

/-! ### Python string primitives used by the scripts -/

/-- Python `s.split(sep)` for a one-character separator, on the underlying
character list (used by the scripts as `source_img.split('/')` and
`image_name_with_tag.split(':')`). -/
def pySplitAux (sep : Char) : List Char → List Char → List (List Char)
  | [], acc => [acc.reverse]
  | c :: rest, acc =>
    if c = sep then acc.reverse :: pySplitAux sep rest []
    else pySplitAux sep rest (c :: acc)

/-- Python `s.split(sep)` for a one-character separator. -/
def pySplit (sep : Char) (s : String) : List String :=
  (pySplitAux sep s.data []).map fun cs => String.mk cs

/-- Python `sep.join(parts)`. -/
def pyJoin (sep : String) : List String → String
  | [] => ""
  | [x] => x
  | x :: y :: rest => x ++ sep ++ pyJoin sep (y :: rest)

/-- Python `s.lower()`, character by character. -/
def lowerStr (s : String) : String := String.mk (s.data.map Char.toLower)

/-- Python substring containment `pat in s`, on character lists. -/
def containsSub (pat : List Char) : List Char → Bool
  | [] => pat.isEmpty
  | c :: rest => pat.isPrefixOf (c :: rest) || containsSub pat rest

/-! ### Transfer Executor: `run_docker` (bananna_bot.py 460-536, sync_bot.py 397-464)

Both scripts contain the same retry loop: `for attempt in range(max_retries)`,
one subprocess attempt per iteration.  The outcome of each attempt is one of:
the command succeeded; it failed with a `CalledProcessError` carrying a return
code and an error message; it timed out; or an unexpected exception occurred. -/

/-- Outcome of one subprocess attempt inside `run_docker`.  For
`calledProcessError`, `error_msg` is the message the Python code classifies
(the decoded stderr, or the `Exit code: n` fallback when stderr is empty). -/
inductive DockerOutcome where
  | success
  | calledProcessError (returncode : Int) (error_msg : String)
  | timeoutExpired
  | otherException
deriving DecidableEq

/-- The non-retryable classification in `run_docker`:
`e.returncode in [125, 1] and "not found" in error_msg.lower()`. -/
def isNotFoundError (returncode : Int) (error_msg : String) : Bool :=
  (returncode == 125 || returncode == 1) &&
    containsSub ("not found".data) (lowerStr error_msg).data

/-- An attempt outcome after which the `run_docker` loop continues to the next
attempt (when attempts remain): every failure except the not-found fast path. -/
def DockerOutcome.isRetryable : DockerOutcome → Bool
  | .success => false
  | .calledProcessError rc msg => !(isNotFoundError rc msg)
  | .timeoutExpired => true
  | .otherException => true

/-- Result reported by `run_docker` when the loop stops at a non-retryable
outcome: `True` on success, `False` on the not-found fast path. -/
def dockerTerminalSuccess : DockerOutcome → Bool
  | .success => true
  | _ => false

/-- The `for attempt in range(max_retries)` loop of `run_docker`.
`outcomes i` is the outcome of attempt `i` (0-based); the arguments are the
remaining loop iterations and the number of attempts already made.  Returns
the boolean result together with the total number of attempts made. -/
def run_docker_aux (outcomes : Nat → DockerOutcome) : Nat → Nat → Bool × Nat
  | 0, made => (false, made)
  | remaining + 1, made =>
    match outcomes made with
    | .success => (true, made + 1)
    | .calledProcessError rc msg =>
      if isNotFoundError rc msg then (false, made + 1)
      else run_docker_aux outcomes remaining (made + 1)
    | .timeoutExpired => run_docker_aux outcomes remaining (made + 1)
    | .otherException => run_docker_aux outcomes remaining (made + 1)

/-- `run_docker(*args)` (identical in both scripts): retry loop over subprocess
attempts, bounded by `OPERATION_CONFIG['max_retries']`. -/
def run_docker (outcomes : Nat → DockerOutcome) (max_retries : Nat) : Bool × Nat :=
  run_docker_aux outcomes max_retries 0

/-! ### Repository Provisioner: `create_quay_repo` (bananna_bot.py 342-457) -/

/-- Outcome of one curl attempt inside `create_quay_repo`: an HTTP status code
(as the string parsed off the last output line) with the response body, a
timeout, or an unexpected exception. -/
inductive QuayAttemptOutcome where
  | http (code : String) (body : String)
  | timeoutExpired
  | otherException
deriving DecidableEq

/-- The `"already exists" in response_body.lower()` test for HTTP 400. -/
def quayAlreadyExists (body : String) : Bool :=
  containsSub ("already exists".data) (lowerStr body).data

/-- An attempt outcome after which the `create_quay_repo` loop continues to the
next attempt (when attempts remain): HTTP 400 without the already-exists
phrase, any unexpected HTTP code, timeouts and unexpected exceptions. -/
def QuayAttemptOutcome.isRetryable : QuayAttemptOutcome → Bool
  | .http code body =>
    if code = "201" then false
    else if code = "400" then !(quayAlreadyExists body)
    else if code = "401" then false
    else if code = "403" then false
    else true
  | .timeoutExpired => true
  | .otherException => true

/-- Result reported by `create_quay_repo` when the loop stops at a
non-retryable outcome: `True` for 201 and for 400 with the already-exists
phrase, `False` for 401 and 403. -/
def quayTerminalSuccess : QuayAttemptOutcome → Bool
  | .http code body =>
    if code = "201" then true
    else if code = "400" then quayAlreadyExists body
    else false
  | .timeoutExpired => false
  | .otherException => false

/-- The `for attempt in range(max_retries)` loop of `create_quay_repo`:
201 returns True; 400 with the already-exists phrase returns True; 401 and 403
return False immediately; any other code, a timeout or an exception falls
through to the next attempt; after the last attempt the function returns
False. -/
def create_quay_repo_aux (att : Nat → QuayAttemptOutcome) : Nat → Nat → Bool × Nat
  | 0, made => (false, made)
  | remaining + 1, made =>
    match att made with
    | .http code body =>
      if code = "201" then (true, made + 1)
      else if code = "400" then
        if quayAlreadyExists body then (true, made + 1)
        else create_quay_repo_aux att remaining (made + 1)
      else if code = "401" then (false, made + 1)
      else if code = "403" then (false, made + 1)
      else create_quay_repo_aux att remaining (made + 1)
    | .timeoutExpired => create_quay_repo_aux att remaining (made + 1)
    | .otherException => create_quay_repo_aux att remaining (made + 1)

/-- `create_quay_repo(registry_config, repo_path)`: the bounded retry loop over
curl attempts, returning the boolean result and the number of attempts made. -/
def create_quay_repo (att : Nat → QuayAttemptOutcome) (max_retries : Nat) : Bool × Nat :=
  create_quay_repo_aux att max_retries 0

/-! ### Lemmas about the two retry loops -/

theorem run_docker_aux_le (outcomes : Nat → DockerOutcome) :
    ∀ n made, (run_docker_aux outcomes n made).2 ≤ made + n := by
  intro n
  induction n with
  | zero => intro made; simp [run_docker_aux]
  | succ m ih =>
    intro made
    have hrec := ih (made + 1)
    cases h : outcomes made with
    | success =>
      simp only [run_docker_aux, h]
      omega
    | calledProcessError rc msg =>
      by_cases hnf : isNotFoundError rc msg = true
      · simp only [run_docker_aux, h, hnf, if_true]
        omega
      · have hnf2 : isNotFoundError rc msg = false := by simpa using hnf
        simp only [run_docker_aux, h, hnf2, Bool.false_eq_true, if_false]
        omega
    | timeoutExpired =>
      simp only [run_docker_aux, h]
      omega
    | otherException =>
      simp only [run_docker_aux, h]
      omega

/-- If the first `j` attempts are retryable failures and attempt `j` is
non-retryable, `run_docker_aux` stops right after attempt `j` and reports the
terminal classification of that attempt. -/
theorem run_docker_aux_decides (outcomes : Nat → DockerOutcome) :
    ∀ j n made, j < n →
      (∀ i, i < j → (outcomes (made + i)).isRetryable = true) →
      (outcomes (made + j)).isRetryable = false →
      run_docker_aux outcomes n made =
        (dockerTerminalSuccess (outcomes (made + j)), made + j + 1) := by
  intro j
  induction j with
  | zero =>
    intro n made hn _ hstop
    obtain ⟨m, rfl⟩ : ∃ m, n = m + 1 := ⟨n - 1, by omega⟩
    simp only [Nat.add_zero] at hstop
    cases h : outcomes made with
    | success =>
      simp [run_docker_aux, h, dockerTerminalSuccess]
    | calledProcessError rc msg =>
      rw [h] at hstop
      have hnf : isNotFoundError rc msg = true := by
        simpa [DockerOutcome.isRetryable] using hstop
      simp [run_docker_aux, h, hnf, dockerTerminalSuccess]
    | timeoutExpired =>
      rw [h] at hstop
      simp [DockerOutcome.isRetryable] at hstop
    | otherException =>
      rw [h] at hstop
      simp [DockerOutcome.isRetryable] at hstop
  | succ j ih =>
    intro n made hn hretry hstop
    obtain ⟨m, rfl⟩ : ∃ m, n = m + 1 := ⟨n - 1, by omega⟩
    have h0 : (outcomes made).isRetryable = true := by
      have := hretry 0 (Nat.succ_pos j)
      simpa using this
    have harith : made + 1 + j = made + (j + 1) := by omega
    have hretry2 : ∀ i, i < j → (outcomes (made + 1 + i)).isRetryable = true := by
      intro i hi
      have hx : made + 1 + i = made + (i + 1) := by omega
      rw [hx]
      exact hretry (i + 1) (by omega)
    have hstop2 : (outcomes (made + 1 + j)).isRetryable = false := by
      rw [harith]; exact hstop
    have hrec := ih m (made + 1) (by omega) hretry2 hstop2
    rw [harith] at hrec
    cases h : outcomes made with
    | success =>
      rw [h] at h0
      simp [DockerOutcome.isRetryable] at h0
    | calledProcessError rc msg =>
      rw [h] at h0
      have h0f : isNotFoundError rc msg = false := by
        simpa [DockerOutcome.isRetryable] using h0
      simpa [run_docker_aux, h, h0f] using hrec
    | timeoutExpired =>
      simpa [run_docker_aux, h] using hrec
    | otherException =>
      simpa [run_docker_aux, h] using hrec

theorem create_quay_repo_aux_le (att : Nat → QuayAttemptOutcome) :
    ∀ n made, (create_quay_repo_aux att n made).2 ≤ made + n := by
  intro n
  induction n with
  | zero => intro made; simp [create_quay_repo_aux]
  | succ m ih =>
    intro made
    have hrec := ih (made + 1)
    cases h : att made with
    | http code body =>
      simp only [create_quay_repo_aux, h]
      split
      · omega
      split
      · split
        · omega
        · omega
      split
      · omega
      split
      · omega
      · omega
    | timeoutExpired =>
      simp only [create_quay_repo_aux, h]
      omega
    | otherException =>
      simp only [create_quay_repo_aux, h]
      omega

/-- If the first `j` attempts are retryable and attempt `j` is non-retryable,
`create_quay_repo_aux` stops right after attempt `j` and reports the terminal
classification of that attempt (`True` for 201 / 400-already-exists, `False`
for 401 / 403). -/
theorem create_quay_repo_aux_decides (att : Nat → QuayAttemptOutcome) :
    ∀ j n made, j < n →
      (∀ i, i < j → (att (made + i)).isRetryable = true) →
      (att (made + j)).isRetryable = false →
      create_quay_repo_aux att n made =
        (quayTerminalSuccess (att (made + j)), made + j + 1) := by
  intro j
  induction j with
  | zero =>
    intro n made hn _ hstop
    obtain ⟨m, rfl⟩ : ∃ m, n = m + 1 := ⟨n - 1, by omega⟩
    simp only [Nat.add_zero] at hstop
    cases h : att made with
    | http code body =>
      rw [h] at hstop
      simp only [QuayAttemptOutcome.isRetryable] at hstop
      by_cases h201 : code = "201"
      · simp [create_quay_repo_aux, h, quayTerminalSuccess, h201]
      · by_cases h400 : code = "400"
        · subst h400
          have hqae : quayAlreadyExists body = true := by
            simpa [h201] using hstop
          simp [create_quay_repo_aux, h, quayTerminalSuccess, h201, hqae]
        · by_cases h401 : code = "401"
          · simp [create_quay_repo_aux, h, quayTerminalSuccess, h201, h400, h401]
          · by_cases h403 : code = "403"
            · simp [create_quay_repo_aux, h, quayTerminalSuccess, h201, h400, h401,
                h403]
            · simp [h201, h400, h401, h403] at hstop
    | timeoutExpired =>
      rw [h] at hstop
      simp [QuayAttemptOutcome.isRetryable] at hstop
    | otherException =>
      rw [h] at hstop
      simp [QuayAttemptOutcome.isRetryable] at hstop
  | succ j ih =>
    intro n made hn hretry hstop
    obtain ⟨m, rfl⟩ : ∃ m, n = m + 1 := ⟨n - 1, by omega⟩
    have h0 : (att made).isRetryable = true := by
      have := hretry 0 (Nat.succ_pos j)
      simpa using this
    have harith : made + 1 + j = made + (j + 1) := by omega
    have hretry2 : ∀ i, i < j → (att (made + 1 + i)).isRetryable = true := by
      intro i hi
      have hx : made + 1 + i = made + (i + 1) := by omega
      rw [hx]
      exact hretry (i + 1) (by omega)
    have hstop2 : (att (made + 1 + j)).isRetryable = false := by
      rw [harith]; exact hstop
    have hrec := ih m (made + 1) (by omega) hretry2 hstop2
    rw [harith] at hrec
    cases h : att made with
    | http code body =>
      rw [h] at h0
      simp only [QuayAttemptOutcome.isRetryable] at h0
      by_cases h201 : code = "201"
      · simp [h201] at h0
      · by_cases h400 : code = "400"
        · subst h400
          have hqae : quayAlreadyExists body = false := by
            simpa [h201] using h0
          simpa [create_quay_repo_aux, h, h201, hqae] using hrec
        · by_cases h401 : code = "401"
          · simp [h201, h400, h401] at h0
          · by_cases h403 : code = "403"
            · simp [h201, h400, h401, h403] at h0
            · simpa [create_quay_repo_aux, h, h201, h400, h401, h403] using hrec
    | timeoutExpired =>
      simpa [create_quay_repo_aux, h] using hrec
    | otherException =>
      simpa [create_quay_repo_aux, h] using hrec

/-- If every attempt is retryable, `create_quay_repo_aux` consumes all
remaining attempts and fails. -/
theorem create_quay_repo_aux_all_retryable (att : Nat → QuayAttemptOutcome)
    (hall : ∀ i, (att i).isRetryable = true) :
    ∀ n made, create_quay_repo_aux att n made = (false, made + n) := by
  intro n
  induction n with
  | zero => intro made; simp [create_quay_repo_aux]
  | succ m ih =>
    intro made
    have hrec := ih (made + 1)
    have hadd : made + 1 + m = made + (m + 1) := by omega
    rw [hadd] at hrec
    have h0 := hall made
    cases h : att made with
    | http code body =>
      rw [h] at h0
      simp only [QuayAttemptOutcome.isRetryable] at h0
      by_cases h201 : code = "201"
      · simp [h201] at h0
      · by_cases h400 : code = "400"
        · subst h400
          have hqae : quayAlreadyExists body = false := by
            simpa [h201] using h0
          simpa [create_quay_repo_aux, h, h201, hqae] using hrec
        · by_cases h401 : code = "401"
          · simp [h201, h400, h401] at h0
          · by_cases h403 : code = "403"
            · simp [h201, h400, h401, h403] at h0
            · simpa [create_quay_repo_aux, h, h201, h400, h401, h403] using hrec
    | timeoutExpired =>
      simpa [create_quay_repo_aux, h] using hrec
    | otherException =>
      simpa [create_quay_repo_aux, h] using hrec

/-! ### Directory Client: `list_all_repositories` (sync_bot.py 148-232) and
`list_all_tags` (sync_bot.py 234-303)

Both loop `while True` over 1-based page numbers.  One page request either
returns parsed JSON (a list of records, each with an optional `name` field,
plus a boolean `has_additional` flag), or fails: non-zero curl exit, timeout,
JSON parse error, or an unexpected exception — every failure breaks the loop,
keeping the items accumulated so far.  The `while True` loop is embedded with
explicit fuel; all claims are about runs that terminate within the fuel. -/

/-- The outcome of one paginated API request. -/
inductive ApiPageResult where
  | ok (items : List (Option String)) (has_additional : Bool)
  | curlFailed
  | timeoutExpired
  | parseError
  | otherException
deriving DecidableEq

/-- The names collected from one page: `item.get('name')` for each record,
kept only when truthy (present and non-empty), as in
`if repo_name: all_repos.append(repo_name)`. -/
def truthyNames (items : List (Option String)) : List String :=
  items.filterMap fun it =>
    match it with
    | none => none
    | some s => if s = "" then none else some s

/-- Whether the page request failed (all four failure branches break the
loop in the same way). -/
def ApiPageResult.isError : ApiPageResult → Bool
  | .ok _ _ => false
  | .curlFailed => true
  | .timeoutExpired => true
  | .parseError => true
  | .otherException => true

/-- The `while True` pagination loop of `list_all_repositories`, with fuel.
`pages p` is the response to the request for page `p`.  Returns the collected
repository names together with the number of page requests made. -/
def list_all_repositories_aux (pages : Nat → ApiPageResult) :
    Nat → Nat → List String × Nat
  | 0, _page => ([], 0)
  | fuel + 1, page =>
    match pages page with
    | .ok items has_additional =>
      if items.isEmpty then ([], 1)
      else if has_additional then
        let r := list_all_repositories_aux pages fuel (page + 1)
        (truthyNames items ++ r.1, r.2 + 1)
      else (truthyNames items, 1)
    | .curlFailed => ([], 1)
    | .timeoutExpired => ([], 1)
    | .parseError => ([], 1)
    | .otherException => ([], 1)

/-- `list_all_repositories(registry_config)`: pagination starts at page 1. -/
def list_all_repositories (pages : Nat → ApiPageResult) (fuel : Nat) :
    List String × Nat :=
  list_all_repositories_aux pages fuel 1

/-- The `while True` pagination loop of `list_all_tags`, with fuel; the loop
body has the same structure as `list_all_repositories_aux` (break on empty
page, break when `has_additional` is falsy, break on any request failure). -/
def list_all_tags_aux (pages : Nat → ApiPageResult) :
    Nat → Nat → List String × Nat
  | 0, _page => ([], 0)
  | fuel + 1, page =>
    match pages page with
    | .ok tags has_additional =>
      if tags.isEmpty then ([], 1)
      else if has_additional then
        let r := list_all_tags_aux pages fuel (page + 1)
        (truthyNames tags ++ r.1, r.2 + 1)
      else (truthyNames tags, 1)
    | .curlFailed => ([], 1)
    | .timeoutExpired => ([], 1)
    | .parseError => ([], 1)
    | .otherException => ([], 1)

/-- `list_all_tags(registry_config, repo_name)`: pagination starts at page 1. -/
def list_all_tags (pages : Nat → ApiPageResult) (fuel : Nat) :
    List String × Nat :=
  list_all_tags_aux pages fuel 1

/-! ### Existence check: `image_exists_in_registry`
(bananna_bot.py 300-339, sync_bot.py 466-500)

One `docker manifest inspect` subprocess run; the only success signal is exit
code 0.  A timeout or an unexpected exception is answered `False`, exactly
like a non-zero exit. -/

/-- Outcome of the single `docker manifest inspect` run. -/
inductive InspectOutcome where
  | exit (returncode : Int)
  | timeoutExpired
  | otherException
deriving DecidableEq

/-- `image_exists_in_registry(image_url)` (identical in both scripts):
`True` iff the inspect subprocess returned exit code 0. -/
def image_exists_in_registry : InspectOutcome → Bool
  | .exit returncode => returncode == 0
  | .timeoutExpired => false
  | .otherException => false

/-! ### Orchestrator-level model

`mirror_image`, `sync_image` and the two `main` run controllers are embedded
one level above the subprocess loops: each external invocation — one
`run_docker(...)` call, one `image_exists_in_registry(...)` call, one
`create_quay_repo(...)` call — consumes one boolean answer from an
environment oracle `Env : Nat → Bool` (the n-th invocation of the run reads
`env n`), and the embedding records the sequence of invocations it makes.
The recorded `EngineCall` list is the evidence for claims of the form
"no pull/tag/push happens" or "both images are removed". -/

/-- One external invocation made by the orchestrators: a `run_docker` call
with its docker arguments, an `image_exists_in_registry` manifest inspection,
or a `create_quay_repo` provisioning call. -/
inductive EngineCall where
  | docker (args : List String)
  | manifestInspect (image_url : String)
  | quayCreate (repo_path : String)
deriving DecidableEq

/-- Oracle answering the n-th external invocation of a run. -/
abbrev Env := Nat → Bool

/-- One entry of `REGISTRIES` (bananna_bot_config.py 14-33): the fields the
orchestrators read (the API token only feeds subprocess arguments). -/
structure RegistryConfig where
  url : String
  nmspace : String
  organization : String
deriving DecidableEq

/-- The `OPERATION_CONFIG` switches read by the orchestrators
(bananna_bot_config.py 69-77); the numeric timeout/retry settings live at the
subprocess level of the model. -/
structure OperationConfig where
  continue_on_error : Bool
  create_repos_if_not_exists : Bool
  cleanup_local_images : Bool
deriving DecidableEq

/-- `ALLOWED_SOURCE_REGISTRIES` (bananna_bot_config.py 37-40). -/
def ALLOWED_SOURCE_REGISTRIES : List String :=
  ["asia-south1-docker.pkg.dev/tsg1-apigee-anthos-prod",
   "asia.gcr.io/tsg1-apigee-anthos-prod"]

/-- `get_destination_image_path(source_img, registry_config)`
(bananna_bot.py 539-578): split the source reference on `/`, take the second
segment as the project and the last segment as `image:tag`, and build
`(dest_img, latest_img, repo_path, tag)`. -/
def get_destination_image_path (source_img : String)
    (registry_config : RegistryConfig) : String × String × String × String :=
  let parts := pySplit '/' source_img
  let project := parts.getD 1 ""
  let image_name_with_tag := parts.getLastD ""
  let nt := pySplit ':' image_name_with_tag
  let image_name := nt.getD 0 ""
  let tag := nt.getD 1 ""
  let dest_img := registry_config.url ++ "/" ++ registry_config.nmspace ++ "/" ++
    project ++ "/" ++ image_name ++ ":" ++ tag
  let latest_img := registry_config.url ++ "/" ++ registry_config.nmspace ++ "/" ++
    project ++ "/" ++ image_name ++ ":latest"
  let repo_path := project ++ "/" ++ image_name
  (dest_img, latest_img, repo_path, tag)

/-- `cleanup_local_images(image_list)` (sync_bot.py 502-518): one
`run_docker("rmi", "-f", image)` call per image; results are ignored, each
call still consumes one oracle answer.  Returns the calls made and the next
oracle index. -/
def cleanup_local_images (k : Nat) : List String → List EngineCall × Nat
  | [] => ([], k)
  | image :: rest =>
    let r := cleanup_local_images (k + 1) rest
    (.docker ["rmi", "-f", image] :: r.1, r.2)

/-- `sync_image(prod_image, dr_image)` (sync_bot.py 522-612): check at the
destination, then pull, tag, push, verify, cleanup, with rollback of the
local images accumulated so far on tag/push/verify failure.  Returns the
boolean result, the external calls made, and the next oracle index. -/
def sync_image (env : Env) (k : Nat) (prod_image dr_image : String) :
    Bool × List EngineCall × Nat :=
  if env k then
    (true, [.manifestInspect dr_image], k + 1)
  else if env (k + 1) = false then
    (false, [.manifestInspect dr_image, .docker ["pull", prod_image]], k + 2)
  else if env (k + 2) = false then
    let cl := cleanup_local_images (k + 3) [prod_image]
    (false, [.manifestInspect dr_image, .docker ["pull", prod_image],
             .docker ["tag", prod_image, dr_image]] ++ cl.1, cl.2)
  else if env (k + 3) = false then
    let cl := cleanup_local_images (k + 4) [prod_image, dr_image]
    (false, [.manifestInspect dr_image, .docker ["pull", prod_image],
             .docker ["tag", prod_image, dr_image],
             .docker ["push", dr_image]] ++ cl.1, cl.2)
  else if env (k + 4) = false then
    let cl := cleanup_local_images (k + 5) [prod_image, dr_image]
    (false, [.manifestInspect dr_image, .docker ["pull", prod_image],
             .docker ["tag", prod_image, dr_image], .docker ["push", dr_image],
             .manifestInspect dr_image] ++ cl.1, cl.2)
  else
    let cl := cleanup_local_images (k + 5) [prod_image, dr_image]
    (true, [.manifestInspect dr_image, .docker ["pull", prod_image],
            .docker ["tag", prod_image, dr_image], .docker ["push", dr_image],
            .manifestInspect dr_image] ++ cl.1, cl.2)

/-- Steps 7-9 of `mirror_image` for one target (bananna_bot.py 675-712):
push the versioned tag; only on success, tag and push the `latest` alias.
Any failure marks the target failed; no branch issues a removal. -/
def mirror_target_push_phase (env : Env) (k : Nat)
    (source_img dest_img latest_img : String) : Bool × List EngineCall × Nat :=
  if env k = false then
    (false, [.docker ["push", dest_img]], k + 1)
  else if env (k + 1) = false then
    (false, [.docker ["push", dest_img],
             .docker ["tag", source_img, latest_img]], k + 2)
  else if env (k + 2) = false then
    (false, [.docker ["push", dest_img], .docker ["tag", source_img, latest_img],
             .docker ["push", latest_img]], k + 3)
  else
    (true, [.docker ["push", dest_img], .docker ["tag", source_img, latest_img],
            .docker ["push", latest_img]], k + 3)

/-- Steps 3-9 of `mirror_image` for one target environment
(bananna_bot.py 626-716): unknown environment fails the target with no calls;
otherwise check existence (skip when present), tag, optionally provision
(a provisioning failure only fails the target when `continue_on_error` is
off), then the push phase. -/
def mirror_target (env : Env) (k : Nat) (cfg : OperationConfig)
    (registries : String → Option RegistryConfig)
    (source_img target_env : String) : Bool × List EngineCall × Nat :=
  match registries target_env with
  | none => (false, [], k)
  | some registry_config =>
    let dl := get_destination_image_path source_img registry_config
    let dest_img := dl.1
    let latest_img := dl.2.1
    let repo_path := dl.2.2.1
    if env k then
      (true, [.manifestInspect dest_img], k + 1)
    else if env (k + 1) = false then
      (false, [.manifestInspect dest_img,
               .docker ["tag", source_img, dest_img]], k + 2)
    else if cfg.create_repos_if_not_exists then
      if !env (k + 2) && !cfg.continue_on_error then
        (false, [.manifestInspect dest_img, .docker ["tag", source_img, dest_img],
                 .quayCreate repo_path], k + 3)
      else
        let r := mirror_target_push_phase env (k + 3) source_img dest_img latest_img
        (r.1, [.manifestInspect dest_img, .docker ["tag", source_img, dest_img],
               .quayCreate repo_path] ++ r.2.1, r.2.2)
    else
      let r := mirror_target_push_phase env (k + 2) source_img dest_img latest_img
      (r.1, [.manifestInspect dest_img,
             .docker ["tag", source_img, dest_img]] ++ r.2.1, r.2.2)

/-- The `for env in target_envs` loop of `mirror_image`: the task succeeds
only if every target contributed no failure. -/
def mirror_targets (env : Env) (cfg : OperationConfig)
    (registries : String → Option RegistryConfig) (source_img : String) :
    Nat → List String → Bool × List EngineCall × Nat
  | k, [] => (true, [], k)
  | k, t :: rest =>
    let r := mirror_target env k cfg registries source_img t
    let rs := mirror_targets env cfg registries source_img r.2.2 rest
    (r.1 && rs.1, r.2.1 ++ rs.2.1, rs.2.2)

/-- The per-target part of step 10 of `mirror_image` (bananna_bot.py 726-731):
for each configured target, remove the destination and latest references. -/
def mirror_cleanup_targets (registries : String → Option RegistryConfig)
    (source_img : String) : Nat → List String → List EngineCall × Nat
  | k, [] => ([], k)
  | k, t :: rest =>
    match registries t with
    | none => mirror_cleanup_targets registries source_img k rest
    | some registry_config =>
      let dl := get_destination_image_path source_img registry_config
      let r := mirror_cleanup_targets registries source_img (k + 2) rest
      (EngineCall.docker ["rmi", dl.1] :: EngineCall.docker ["rmi", dl.2.1] :: r.1,
       r.2)

/-- Step 10 of `mirror_image` (bananna_bot.py 718-733): remove the local
source image, then the per-target references. -/
def mirror_cleanup (registries : String → Option RegistryConfig)
    (source_img : String) (k : Nat) (target_envs : List String) :
    List EngineCall × Nat :=
  let r := mirror_cleanup_targets registries source_img (k + 1) target_envs
  (EngineCall.docker ["rmi", source_img] :: r.1, r.2)

/-- `mirror_image(source_img, target_envs, description)`
(bananna_bot.py 581-745): validate the source against the allow-list before
any external call, pull the source once, process each target, optionally
clean up local images, and succeed only if the pull and every target
succeeded. -/
def mirror_image (env : Env) (k : Nat) (cfg : OperationConfig)
    (registries : String → Option RegistryConfig) (allowed : List String)
    (source_img : String) (target_envs : List String) :
    Bool × List EngineCall × Nat :=
  let source_reg := pyJoin "/" ((pySplit '/' source_img).take 2)
  if !(allowed.contains source_reg) then
    (false, [], k)
  else if !env k && !cfg.continue_on_error then
    (false, [.docker ["pull", source_img]], k + 1)
  else
    let ts := mirror_targets env cfg registries source_img (k + 1) target_envs
    let cl := if cfg.cleanup_local_images then
                mirror_cleanup registries source_img ts.2.2 target_envs
              else ([], ts.2.2)
    (env k && ts.1, .docker ["pull", source_img] :: (ts.2.1 ++ cl.1), cl.2)

/-- One task of the mirror run controller, as `(source_img, targets)`
(IMAGES_TO_MIRROR entry). -/
structure MirrorTask where
  source_img : String
  targets : List String
deriving DecidableEq

/-- Step 4 of bananna_bot.py `main` (lines 792-836): iterate the catalog,
count `(successful_images, failed_images)`, and stop at the first failed
task when `continue_on_error` is off. -/
def mirror_run (env : Env) (cfg : OperationConfig)
    (registries : String → Option RegistryConfig) (allowed : List String) :
    Nat → List MirrorTask → (Nat × Nat) × List EngineCall × Nat
  | k, [] => ((0, 0), [], k)
  | k, task :: rest =>
    let r := mirror_image env k cfg registries allowed task.source_img task.targets
    if r.1 then
      let rs := mirror_run env cfg registries allowed r.2.2 rest
      ((rs.1.1 + 1, rs.1.2), r.2.1 ++ rs.2.1, rs.2.2)
    else if cfg.continue_on_error then
      let rs := mirror_run env cfg registries allowed r.2.2 rest
      ((rs.1.1, rs.1.2 + 1), r.2.1 ++ rs.2.1, rs.2.2)
    else
      ((0, 1), r.2.1, r.2.2)

/-- Step 6 of bananna_bot.py `main` (lines 861-871): exit code 0 iff every
configured image was mirrored successfully. -/
def mirror_exit_code (successful_images total_images : Nat) : Nat :=
  if successful_images = total_images then 0 else 1

/-- The per-(repository, tag) counting step of sync_bot.py `main`
(lines 699-707): after `sync_image` returns, a successful sync is counted as
`successful` only when a fresh `image_exists_in_registry(dr_image)` check
answers true, and as `skipped` otherwise; a failed sync is counted as
`failed`.  Returns the `(successful, skipped, failed)` increments and the
next oracle index. -/
def sync_count_step (env : Env) (k : Nat) (prod_image dr_image : String) :
    (Nat × Nat × Nat) × Nat :=
  let r := sync_image env k prod_image dr_image
  if r.1 then
    if env r.2.2 then ((1, 0, 0), r.2.2 + 1)
    else ((0, 1, 0), r.2.2 + 1)
  else ((0, 0, 1), r.2.2)

/-! ### Claims -/

/-- C1 counterexample.  The claim says that when the destination tag already
exists no pull call is made for the task.  In the mirror flow the source pull
(step 2 of `mirror_image`) happens before the per-target existence check: in a
run whose oracle answers every invocation `true` — so the manifest inspection
(invocation 1) reports the destination tag present and the target is skipped —
the recorded trace of the task nevertheless contains the pull call. -/
theorem C1_counterexample :
    ((fun _ => true : Env) 1 = true) ∧
    mirror_image (fun _ => true) 0 ⟨true, true, false⟩
      (fun t => if t = "prod" then some ⟨"q", "ns", "o"⟩ else none)
      ["h/p"] "h/p/i:t" ["prod"] =
      (true, [.docker ["pull", "h/p/i:t"], .manifestInspect "q/ns/p/i:t"], 2) ∧
    EngineCall.docker ["pull", "h/p/i:t"] ∈
      (mirror_image (fun _ => true) 0 ⟨true, true, false⟩
        (fun t => if t = "prod" then some ⟨"q", "ns", "o"⟩ else none)
        ["h/p"] "h/p/i:t" ["prod"]).2.1 := by
  refine ⟨rfl, by decide, by decide⟩

/-- C1 (amended): in the bulk sync flow, when the destination check answers
true `sync_image` returns success after that single manifest inspection, with
no pull/tag/push call; in the mirror flow the source pull precedes the
existence check, and a target whose destination tag exists is skipped with no
tag or push call for that target (its only recorded call is the manifest
inspection). -/
theorem C1_skip_no_transfer (env : Env) (k : Nat) (cfg : OperationConfig)
    (registries : String → Option RegistryConfig)
    (source_img target_env prod_image dr_image : String)
    (registry_config : RegistryConfig) :
    (env k = true →
      sync_image env k prod_image dr_image =
        (true, [.manifestInspect dr_image], k + 1)) ∧
    (registries target_env = some registry_config → env k = true →
      mirror_target env k cfg registries source_img target_env =
        (true,
         [.manifestInspect (get_destination_image_path source_img registry_config).1],
         k + 1)) := by
  constructor
  · intro h
    simp [sync_image, h]
  · intro hreg h
    simp [mirror_target, hreg, h]

/-- Witness for C1's amended statement at a concrete environment where the
destination tag exists. -/
theorem C1_skip_no_transfer_witness :
    sync_image (fun _ => true) 0 "p" "d" = (true, [.manifestInspect "d"], 1) ∧
    mirror_target (fun _ => true) 0 ⟨true, true, false⟩
      (fun _ => some ⟨"q", "ns", "o"⟩) "h/p/i:t" "prod" =
      (true, [.manifestInspect "q/ns/p/i:t"], 1) := by
  have h := C1_skip_no_transfer (fun _ => true) 0 ⟨true, true, false⟩
    (fun _ => some ⟨"q", "ns", "o"⟩) "h/p/i:t" "prod" "p" "d" ⟨"q", "ns", "o"⟩
  exact ⟨h.1 rfl, h.2 rfl rfl⟩

/-- C2: across both scripts' `run_docker`, the number of subprocess attempts
never exceeds `max_retries`; and when the run reaches an attempt that fails
with exit code 125 or 1 and a "not found" phrase in the error output, the
invocation returns failure immediately after that attempt, consuming none of
the remaining retries. -/
theorem C2_run_docker_retry_bound (outcomes : Nat → DockerOutcome)
    (max_retries : Nat) :
    (run_docker outcomes max_retries).2 ≤ max_retries ∧
    (∀ j rc msg, j < max_retries →
      (∀ i, i < j → (outcomes i).isRetryable = true) →
      outcomes j = .calledProcessError rc msg →
      isNotFoundError rc msg = true →
      run_docker outcomes max_retries = (false, j + 1)) := by
  constructor
  · simpa using run_docker_aux_le outcomes max_retries 0
  · intro j rc msg hj hretry hj2 hnf
    have hretry0 : ∀ i, i < j → (outcomes (0 + i)).isRetryable = true := by
      intro i hi
      rw [Nat.zero_add]
      exact hretry i hi
    have hstop : (outcomes (0 + j)).isRetryable = false := by
      rw [Nat.zero_add, hj2]
      simp [DockerOutcome.isRetryable, hnf]
    have h := run_docker_aux_decides outcomes j max_retries 0 hj hretry0 hstop
    rw [Nat.zero_add, hj2] at h
    simpa [run_docker, dockerTerminalSuccess] using h

/-- Witness for C2: a concrete oracle whose first attempt is a not-found
failure; with three retries configured the invocation stops after one. -/
theorem C2_run_docker_retry_bound_witness :
    (run_docker (fun _ => .calledProcessError 125 "manifest: not found") 3).2 ≤ 3 ∧
    run_docker (fun _ => .calledProcessError 125 "manifest: not found") 3 =
      (false, 1) :=
  ⟨(C2_run_docker_retry_bound (fun _ => .calledProcessError 125 "manifest: not found") 3).1,
   (C2_run_docker_retry_bound (fun _ => .calledProcessError 125 "manifest: not found") 3).2
     0 125 "manifest: not found" (by decide)
     (fun i hi => absurd hi (by omega)) rfl (by decide)⟩

/-- C3: in the bulk sync flow, when the push reports success (oracle answers
true at the push invocation) but the post-push manifest verification fails,
`sync_image` fails and the recorded trace removes both local images — the
pulled source image and the destination-tagged image — never only one. -/
theorem C3_verify_failure_rollback (env : Env) (k : Nat)
    (prod_image dr_image : String)
    (h0 : env k = false) (h1 : env (k + 1) = true) (h2 : env (k + 2) = true)
    (h3 : env (k + 3) = true) (h4 : env (k + 4) = false) :
    sync_image env k prod_image dr_image =
      (false, [.manifestInspect dr_image, .docker ["pull", prod_image],
               .docker ["tag", prod_image, dr_image], .docker ["push", dr_image],
               .manifestInspect dr_image, .docker ["rmi", "-f", prod_image],
               .docker ["rmi", "-f", dr_image]], k + 7) ∧
    EngineCall.docker ["rmi", "-f", prod_image] ∈
      (sync_image env k prod_image dr_image).2.1 ∧
    EngineCall.docker ["rmi", "-f", dr_image] ∈
      (sync_image env k prod_image dr_image).2.1 := by
  have he : sync_image env k prod_image dr_image =
      (false, [.manifestInspect dr_image, .docker ["pull", prod_image],
               .docker ["tag", prod_image, dr_image], .docker ["push", dr_image],
               .manifestInspect dr_image, .docker ["rmi", "-f", prod_image],
               .docker ["rmi", "-f", dr_image]], k + 7) := by
    simp [sync_image, cleanup_local_images, h0, h1, h2, h3, h4]
  refine ⟨he, ?_, ?_⟩ <;> rw [he] <;> simp

/-- Witness for C3: pull, tag and push succeed, the verification fails. -/
theorem C3_verify_failure_rollback_witness :
    sync_image (fun i => decide (1 ≤ i ∧ i ≤ 3)) 0 "p" "d" =
      (false, [.manifestInspect "d", .docker ["pull", "p"],
               .docker ["tag", "p", "d"], .docker ["push", "d"],
               .manifestInspect "d", .docker ["rmi", "-f", "p"],
               .docker ["rmi", "-f", "d"]], 7) :=
  (C3_verify_failure_rollback (fun i => decide (1 ≤ i ∧ i ≤ 3)) 0 "p" "d"
    (by decide) (by decide) (by decide) (by decide) (by decide)).1

/-- C4: a source image whose first two slash-separated path segments are not
in the allow-list is rejected by `mirror_image` before any external call: the
result is failure, the recorded trace is empty, and no oracle answer is
consumed. -/
theorem C4_source_validation (env : Env) (k : Nat) (cfg : OperationConfig)
    (registries : String → Option RegistryConfig) (allowed : List String)
    (source_img : String) (target_envs : List String)
    (h : allowed.contains (pyJoin "/" ((pySplit '/' source_img).take 2)) = false) :
    mirror_image env k cfg registries allowed source_img target_envs =
      (false, [], k) := by
  have h2 : pyJoin "/" ((pySplit '/' source_img).take 2) ∉ allowed := by
    simpa using h
  simp [mirror_image, h2]

/-- Witness for C4 against the configured `ALLOWED_SOURCE_REGISTRIES`:
a docker.io image is rejected with no calls. -/
theorem C4_source_validation_witness :
    mirror_image (fun _ => true) 0 ⟨true, true, false⟩ (fun _ => none)
      ALLOWED_SOURCE_REGISTRIES "docker.io/library/nginx:1.25" ["prod"] =
      (false, [], 0) :=
  C4_source_validation (fun _ => true) 0 ⟨true, true, false⟩ (fun _ => none)
    ALLOWED_SOURCE_REGISTRIES "docker.io/library/nginx:1.25" ["prod"] (by decide)

theorem isEmpty_false_of_ne_nil {α : Type} {l : List α} (h : l ≠ []) :
    l.isEmpty = false := by
  cases l with
  | nil => exact absurd rfl h
  | cons x xs => rfl

/-- C5: pagination terminates exactly when a page returns no items or when the
has-more-pages flag is falsy, and any page failure truncates the result to the
items accumulated so far — for both directory calls.  With pages of sizes
[2, 2, 0] exactly 3 requests are made and the items of the first two pages are
collected; with a falsy flag on a non-empty page 1 exactly 1 request is made;
with a failing page 2 the result is page 1's items after 2 requests. -/
theorem C5_pagination (pages : Nat → ApiPageResult) (fuel : Nat)
    (a b : List (Option String)) :
    (3 ≤ fuel → pages 1 = .ok a true → pages 2 = .ok b true →
      pages 3 = .ok [] true → a ≠ [] → b ≠ [] →
      list_all_repositories pages fuel = (truthyNames a ++ truthyNames b, 3) ∧
      list_all_tags pages fuel = (truthyNames a ++ truthyNames b, 3)) ∧
    (1 ≤ fuel → pages 1 = .ok a false → a ≠ [] →
      list_all_repositories pages fuel = (truthyNames a, 1) ∧
      list_all_tags pages fuel = (truthyNames a, 1)) ∧
    (2 ≤ fuel → pages 1 = .ok a true → (pages 2).isError = true → a ≠ [] →
      list_all_repositories pages fuel = (truthyNames a, 2) ∧
      list_all_tags pages fuel = (truthyNames a, 2)) := by
  refine ⟨?_, ?_, ?_⟩
  · intro hfuel h1 h2 h3 ha hb
    obtain ⟨f, rfl⟩ : ∃ f, fuel = f + 3 := ⟨fuel - 3, by omega⟩
    have ha2 := isEmpty_false_of_ne_nil ha
    have hb2 := isEmpty_false_of_ne_nil hb
    rw [show f + 3 = f + 1 + 1 + 1 from rfl]
    constructor
    · simp [list_all_repositories, list_all_repositories_aux, h1, h2, h3, ha2, hb2]
    · simp [list_all_tags, list_all_tags_aux, h1, h2, h3, ha2, hb2]
  · intro hfuel h1 ha
    obtain ⟨f, rfl⟩ : ∃ f, fuel = f + 1 := ⟨fuel - 1, by omega⟩
    have ha2 := isEmpty_false_of_ne_nil ha
    constructor
    · simp [list_all_repositories, list_all_repositories_aux, h1, ha2]
    · simp [list_all_tags, list_all_tags_aux, h1, ha2]
  · intro hfuel h1 herr ha
    obtain ⟨f, rfl⟩ : ∃ f, fuel = f + 2 := ⟨fuel - 2, by omega⟩
    have ha2 := isEmpty_false_of_ne_nil ha
    rw [show f + 2 = f + 1 + 1 from rfl]
    cases h2 : pages 2 with
    | ok items flag => rw [h2] at herr; simp [ApiPageResult.isError] at herr
    | curlFailed =>
      constructor
      · simp [list_all_repositories, list_all_repositories_aux, h1, h2, ha2]
      · simp [list_all_tags, list_all_tags_aux, h1, h2, ha2]
    | timeoutExpired =>
      constructor
      · simp [list_all_repositories, list_all_repositories_aux, h1, h2, ha2]
      · simp [list_all_tags, list_all_tags_aux, h1, h2, ha2]
    | parseError =>
      constructor
      · simp [list_all_repositories, list_all_repositories_aux, h1, h2, ha2]
      · simp [list_all_tags, list_all_tags_aux, h1, h2, ha2]
    | otherException =>
      constructor
      · simp [list_all_repositories, list_all_repositories_aux, h1, h2, ha2]
      · simp [list_all_tags, list_all_tags_aux, h1, h2, ha2]

/-- Witness for C5: a concrete discovery API with pages of sizes [2, 2, 0]
gives 3 requests and 4 collected names (part one of C5 instantiated). -/
theorem C5_pagination_witness :
    list_all_repositories
      (fun p => if p = 1 then .ok [some "r1", some "r2"] true
                else if p = 2 then .ok [some "r3", some "r4"] true
                else .ok [] true) 5 =
      (["r1", "r2", "r3", "r4"], 3) := by
  have h := (C5_pagination
    (fun p => if p = 1 then .ok [some "r1", some "r2"] true
              else if p = 2 then .ok [some "r3", some "r4"] true
              else .ok [] true) 5
    [some "r1", some "r2"] [some "r3", some "r4"]).1
    (by omega) (by decide) (by decide) (by decide) (by decide) (by decide)
  simpa [truthyNames] using h.1

/-- C6: `create_quay_repo` interprets the creation response as: HTTP 201 →
success, stop; HTTP 400 with an already-exists phrase in the body → success,
stop; HTTP 401 or 403 → failure returned right after that attempt with no
further retries; any other HTTP 400, any other/unexpected code, a timeout or
an exception is retryable, and after `max_retries` retryable attempts the
invocation returns failure.  The attempt count never exceeds `max_retries`. -/
theorem C6_create_quay_repo (att : Nat → QuayAttemptOutcome) (max_retries : Nat) :
    (create_quay_repo att max_retries).2 ≤ max_retries ∧
    (∀ j, j < max_retries → (∀ i, i < j → (att i).isRetryable = true) →
      ((∀ body, att j = .http "201" body →
        create_quay_repo att max_retries = (true, j + 1)) ∧
       (∀ body, att j = .http "400" body → quayAlreadyExists body = true →
        create_quay_repo att max_retries = (true, j + 1)) ∧
       (∀ code body, att j = .http code body → (code = "401" ∨ code = "403") →
        create_quay_repo att max_retries = (false, j + 1)))) ∧
    (∀ body, quayAlreadyExists body = false →
      (QuayAttemptOutcome.http "400" body).isRetryable = true) ∧
    ((QuayAttemptOutcome.http "500" "").isRetryable = true ∧
     QuayAttemptOutcome.timeoutExpired.isRetryable = true ∧
     QuayAttemptOutcome.otherException.isRetryable = true) ∧
    ((∀ i, (att i).isRetryable = true) →
      create_quay_repo att max_retries = (false, max_retries)) := by
  refine ⟨?_, ?_, ?_, ⟨by decide, rfl, rfl⟩, ?_⟩
  · simpa using create_quay_repo_aux_le att max_retries 0
  · intro j hj hretry
    have hretry0 : ∀ i, i < j → (att (0 + i)).isRetryable = true := by
      intro i hi
      rw [Nat.zero_add]
      exact hretry i hi
    refine ⟨?_, ?_, ?_⟩
    · intro body hbody
      have hstop : (att (0 + j)).isRetryable = false := by
        rw [Nat.zero_add, hbody]
        simp [QuayAttemptOutcome.isRetryable]
      have h := create_quay_repo_aux_decides att j max_retries 0 hj hretry0 hstop
      rw [Nat.zero_add, hbody] at h
      simpa [create_quay_repo, quayTerminalSuccess] using h
    · intro body hbody hqae
      have hstop : (att (0 + j)).isRetryable = false := by
        rw [Nat.zero_add, hbody]
        simp [QuayAttemptOutcome.isRetryable, hqae]
      have h := create_quay_repo_aux_decides att j max_retries 0 hj hretry0 hstop
      rw [Nat.zero_add, hbody] at h
      simpa [create_quay_repo, quayTerminalSuccess, hqae] using h
    · intro code body hbody hcode
      cases hcode with
      | inl hc =>
        subst hc
        have hstop : (att (0 + j)).isRetryable = false := by
          rw [Nat.zero_add, hbody]
          simp [QuayAttemptOutcome.isRetryable]
        have h := create_quay_repo_aux_decides att j max_retries 0 hj hretry0 hstop
        rw [Nat.zero_add, hbody] at h
        simpa [create_quay_repo, quayTerminalSuccess] using h
      | inr hc =>
        subst hc
        have hstop : (att (0 + j)).isRetryable = false := by
          rw [Nat.zero_add, hbody]
          simp [QuayAttemptOutcome.isRetryable]
        have h := create_quay_repo_aux_decides att j max_retries 0 hj hretry0 hstop
        rw [Nat.zero_add, hbody] at h
        simpa [create_quay_repo, quayTerminalSuccess] using h
  · intro body hqae
    simp [QuayAttemptOutcome.isRetryable, hqae]
  · intro hall
    simpa [create_quay_repo] using create_quay_repo_aux_all_retryable att hall max_retries 0

/-- Witness for C6: a 403 response stops after one attempt with failure; an
all-timeouts oracle consumes all three attempts and fails. -/
theorem C6_create_quay_repo_witness :
    create_quay_repo (fun _ => .http "403" "denied") 3 = (false, 1) ∧
    create_quay_repo (fun _ => .timeoutExpired) 3 = (false, 3) :=
  ⟨((C6_create_quay_repo (fun _ => .http "403" "denied") 3).2.1 0 (by omega)
      (fun i hi => absurd hi (by omega))).2.2 "403" "denied" rfl (Or.inr rfl),
   (C6_create_quay_repo (fun _ => .timeoutExpired) 3).2.2.2.2 (fun _ => rfl)⟩

/-- The mirror run controller counts every task exactly once when
`continue_on_error` is on. -/
theorem mirror_run_total (env : Env) (cfg : OperationConfig)
    (registries : String → Option RegistryConfig) (allowed : List String)
    (hcoe : cfg.continue_on_error = true) :
    ∀ tasks k, (mirror_run env cfg registries allowed k tasks).1.1 +
      (mirror_run env cfg registries allowed k tasks).1.2 = tasks.length := by
  intro tasks
  induction tasks with
  | nil => intro k; simp [mirror_run]
  | cons t rest ih =>
    intro k
    have ih1 := ih (mirror_image env k cfg registries allowed t.source_img t.targets).2.2
    cases hr : (mirror_image env k cfg registries allowed t.source_img t.targets).1 with
    | true =>
      simp only [mirror_run, hr, if_true, List.length_cons]
      omega
    | false =>
      simp only [mirror_run, hr, hcoe, Bool.false_eq_true, if_false, if_true,
        List.length_cons]
      omega

/-- The mirror run controller never counts more than one failed task when
`continue_on_error` is off. -/
theorem mirror_run_failed_le (env : Env) (cfg : OperationConfig)
    (registries : String → Option RegistryConfig) (allowed : List String)
    (hcoe : cfg.continue_on_error = false) :
    ∀ tasks k, (mirror_run env cfg registries allowed k tasks).1.2 ≤ 1 := by
  intro tasks
  induction tasks with
  | nil => intro k; simp [mirror_run]
  | cons t rest ih =>
    intro k
    have ih1 := ih (mirror_image env k cfg registries allowed t.source_img t.targets).2.2
    cases hr : (mirror_image env k cfg registries allowed t.source_img t.targets).1 with
    | true =>
      simp only [mirror_run, hr, if_true]
      omega
    | false =>
      simp only [mirror_run, hr, hcoe, Bool.false_eq_true, if_false]
      omega

/-- C7: in the mirror run controller, with `continue_on_error` off, a failing
head task ends the run at once — the statistics are exactly (0 successes,
1 failure), the recorded trace is only the failing task's trace, the remaining
tasks consume no oracle answers, the exit code is 1, and in general at most
one task is ever counted failed; with `continue_on_error` on, every task is
counted exactly once and the exit code is 0 iff no task failed. -/
theorem C7_continue_on_error (env : Env) (k : Nat) (cfg : OperationConfig)
    (registries : String → Option RegistryConfig) (allowed : List String)
    (task : MirrorTask) (rest tasks : List MirrorTask) :
    (cfg.continue_on_error = false →
      (mirror_image env k cfg registries allowed task.source_img task.targets).1 = false →
      mirror_run env cfg registries allowed k (task :: rest) =
        ((0, 1),
         (mirror_image env k cfg registries allowed task.source_img task.targets).2.1,
         (mirror_image env k cfg registries allowed task.source_img task.targets).2.2) ∧
      mirror_exit_code (mirror_run env cfg registries allowed k (task :: rest)).1.1
        (task :: rest).length = 1) ∧
    (cfg.continue_on_error = false →
      (mirror_run env cfg registries allowed k tasks).1.2 ≤ 1) ∧
    (cfg.continue_on_error = true →
      (mirror_run env cfg registries allowed k tasks).1.1 +
        (mirror_run env cfg registries allowed k tasks).1.2 = tasks.length ∧
      (mirror_exit_code (mirror_run env cfg registries allowed k tasks).1.1
          tasks.length = 0 ↔
        (mirror_run env cfg registries allowed k tasks).1.2 = 0)) := by
  refine ⟨?_, ?_, ?_⟩
  · intro hcoe hfail
    have he : mirror_run env cfg registries allowed k (task :: rest) =
        ((0, 1),
         (mirror_image env k cfg registries allowed task.source_img task.targets).2.1,
         (mirror_image env k cfg registries allowed task.source_img task.targets).2.2) := by
      simp only [mirror_run, hfail, hcoe, Bool.false_eq_true, if_false]
    refine ⟨he, ?_⟩
    rw [he]
    simp only [mirror_exit_code, List.length_cons]
    rw [if_neg (by omega)]
  · intro hcoe
    exact mirror_run_failed_le env cfg registries allowed hcoe tasks k
  · intro hcoe
    have htot := mirror_run_total env cfg registries allowed hcoe tasks k
    refine ⟨htot, ?_⟩
    simp only [mirror_exit_code]
    constructor
    · intro h0
      split at h0
      · omega
      · omega
    · intro hf
      rw [if_pos (by omega)]

/-- Witness for C7: with `continue_on_error` off, a two-task catalog whose
first task fails (its pull fails) stops after the first task with statistics
(0, 1); with `continue_on_error` on, a one-task catalog is fully counted. -/
theorem C7_continue_on_error_witness :
    mirror_run (fun _ => false) ⟨false, false, false⟩ (fun _ => none) ["h/p"] 0
      [⟨"h/p/i:t", []⟩, ⟨"h/p/i:t", []⟩] =
      ((0, 1), [.docker ["pull", "h/p/i:t"]], 1) ∧
    (mirror_run (fun _ => true) ⟨true, false, false⟩ (fun _ => none) ["h/p"] 0
        [⟨"h/p/i:t", []⟩]).1.1 +
      (mirror_run (fun _ => true) ⟨true, false, false⟩ (fun _ => none) ["h/p"] 0
        [⟨"h/p/i:t", []⟩]).1.2 = 1 := by
  constructor
  · have h := (C7_continue_on_error (fun _ => false) 0 ⟨false, false, false⟩
      (fun _ => none) ["h/p"] ⟨"h/p/i:t", []⟩ [⟨"h/p/i:t", []⟩] []).1 rfl (by decide)
    exact h.1
  · exact ((C7_continue_on_error (fun _ => true) 0 ⟨true, false, false⟩
      (fun _ => none) ["h/p"] ⟨"h/p/i:t", []⟩ [] [⟨"h/p/i:t", []⟩]).2.2 rfl).1

/-- `mirror_target` never issues a removal: no branch of the per-target state
machine records an `rmi` call. -/
theorem mirror_target_no_rmi (env : Env) (k : Nat) (cfg : OperationConfig)
    (registries : String → Option RegistryConfig) (source_img target_env : String)
    (args : List String) :
    EngineCall.docker ("rmi" :: args) ∉
      (mirror_target env k cfg registries source_img target_env).2.1 := by
  cases hreg : registries target_env with
  | none => simp [mirror_target, hreg]
  | some rc =>
    simp only [mirror_target, mirror_target_push_phase, hreg]
    repeat' split
    all_goals simp

/-- C8: in the mirror flow, for a target that passes the existence check and
the tag step, the latest-alias tag and push are attempted only when the
versioned push succeeded — in both provisioning configurations.  With
repository auto-creation disabled the push phase runs right after the tag;
with it enabled (the shipped default, bananna_bot_config.py line 71) one
provisioning call precedes the push phase whenever the target is not cut
short by a provisioning failure under `continue_on_error = false`, and in
that cut-short case neither the versioned push nor any latest call happens.
In every configuration a failed versioned push ends the target with no
latest-tag or latest-push call; a failed latest tag or latest push leaves the
target failed (partial) with the versioned push still in the trace; and no
branch of `mirror_target` ever records an `rmi` call, so the versioned
destination image is never removed. -/
theorem C8_latest_only_after_push (env : Env) (k : Nat) (cfg : OperationConfig)
    (registries : String → Option RegistryConfig) (source_img target_env : String)
    (registry_config : RegistryConfig)
    (hreg : registries target_env = some registry_config)
    (hexists : env k = false) (htag : env (k + 1) = true) :
    (cfg.create_repos_if_not_exists = false →
      (env (k + 2) = false →
        mirror_target env k cfg registries source_img target_env =
          (false,
           [.manifestInspect (get_destination_image_path source_img registry_config).1,
            .docker ["tag", source_img,
              (get_destination_image_path source_img registry_config).1],
            .docker ["push",
              (get_destination_image_path source_img registry_config).1]],
           k + 3)) ∧
      (env (k + 2) = true → env (k + 3) = false →
        mirror_target env k cfg registries source_img target_env =
          (false,
           [.manifestInspect (get_destination_image_path source_img registry_config).1,
            .docker ["tag", source_img,
              (get_destination_image_path source_img registry_config).1],
            .docker ["push",
              (get_destination_image_path source_img registry_config).1],
            .docker ["tag", source_img,
              (get_destination_image_path source_img registry_config).2.1]],
           k + 4)) ∧
      (env (k + 2) = true → env (k + 3) = true → env (k + 4) = false →
        mirror_target env k cfg registries source_img target_env =
          (false,
           [.manifestInspect (get_destination_image_path source_img registry_config).1,
            .docker ["tag", source_img,
              (get_destination_image_path source_img registry_config).1],
            .docker ["push",
              (get_destination_image_path source_img registry_config).1],
            .docker ["tag", source_img,
              (get_destination_image_path source_img registry_config).2.1],
            .docker ["push",
              (get_destination_image_path source_img registry_config).2.1]],
           k + 5))) ∧
    (cfg.create_repos_if_not_exists = true →
      (env (k + 2) = true ∨ cfg.continue_on_error = true) →
      (env (k + 3) = false →
        mirror_target env k cfg registries source_img target_env =
          (false,
           [.manifestInspect (get_destination_image_path source_img registry_config).1,
            .docker ["tag", source_img,
              (get_destination_image_path source_img registry_config).1],
            .quayCreate (get_destination_image_path source_img registry_config).2.2.1,
            .docker ["push",
              (get_destination_image_path source_img registry_config).1]],
           k + 4)) ∧
      (env (k + 3) = true → env (k + 4) = false →
        mirror_target env k cfg registries source_img target_env =
          (false,
           [.manifestInspect (get_destination_image_path source_img registry_config).1,
            .docker ["tag", source_img,
              (get_destination_image_path source_img registry_config).1],
            .quayCreate (get_destination_image_path source_img registry_config).2.2.1,
            .docker ["push",
              (get_destination_image_path source_img registry_config).1],
            .docker ["tag", source_img,
              (get_destination_image_path source_img registry_config).2.1]],
           k + 5)) ∧
      (env (k + 3) = true → env (k + 4) = true → env (k + 5) = false →
        mirror_target env k cfg registries source_img target_env =
          (false,
           [.manifestInspect (get_destination_image_path source_img registry_config).1,
            .docker ["tag", source_img,
              (get_destination_image_path source_img registry_config).1],
            .quayCreate (get_destination_image_path source_img registry_config).2.2.1,
            .docker ["push",
              (get_destination_image_path source_img registry_config).1],
            .docker ["tag", source_img,
              (get_destination_image_path source_img registry_config).2.1],
            .docker ["push",
              (get_destination_image_path source_img registry_config).2.1]],
           k + 6))) ∧
    (cfg.create_repos_if_not_exists = true → env (k + 2) = false →
      cfg.continue_on_error = false →
      mirror_target env k cfg registries source_img target_env =
        (false,
         [.manifestInspect (get_destination_image_path source_img registry_config).1,
          .docker ["tag", source_img,
            (get_destination_image_path source_img registry_config).1],
          .quayCreate (get_destination_image_path source_img registry_config).2.2.1],
         k + 3)) ∧
    (∀ env2 k2 cfg2 args, EngineCall.docker ("rmi" :: args) ∉
      (mirror_target env2 k2 cfg2 registries source_img target_env).2.1) := by
  refine ⟨?_, ?_, ?_, ?_⟩
  · intro hprov
    refine ⟨?_, ?_, ?_⟩
    · intro hpush
      simp [mirror_target, mirror_target_push_phase, hreg, hprov, hexists, htag,
        hpush]
    · intro hpush hlt
      simp [mirror_target, mirror_target_push_phase, hreg, hprov, hexists, htag,
        hpush, hlt]
    · intro hpush hlt hlp
      simp [mirror_target, mirror_target_push_phase, hreg, hprov, hexists, htag,
        hpush, hlt, hlp]
  · intro hprov hok
    cases hok with
    | inl h2 =>
      refine ⟨?_, ?_, ?_⟩
      · intro hpush
        simp [mirror_target, mirror_target_push_phase, hreg, hprov, h2, hexists,
          htag, hpush]
      · intro hpush hlt
        simp [mirror_target, mirror_target_push_phase, hreg, hprov, h2, hexists,
          htag, hpush, hlt]
      · intro hpush hlt hlp
        simp [mirror_target, mirror_target_push_phase, hreg, hprov, h2, hexists,
          htag, hpush, hlt, hlp]
    | inr h2 =>
      refine ⟨?_, ?_, ?_⟩
      · intro hpush
        simp [mirror_target, mirror_target_push_phase, hreg, hprov, h2, hexists,
          htag, hpush]
      · intro hpush hlt
        simp [mirror_target, mirror_target_push_phase, hreg, hprov, h2, hexists,
          htag, hpush, hlt]
      · intro hpush hlt hlp
        simp [mirror_target, mirror_target_push_phase, hreg, hprov, h2, hexists,
          htag, hpush, hlt, hlp]
  · intro hprov hpfail hcoe
    simp [mirror_target, hreg, hprov, hexists, htag, hpfail, hcoe]
  · intro env2 k2 cfg2 args
    exact mirror_target_no_rmi env2 k2 cfg2 registries source_img target_env args

/-- Witness for C8 in both configurations: with provisioning off, a failed
versioned push stops the target with only inspect, tag and push; with
provisioning on (the shipped default) and the provisioning call succeeding, a
failed versioned push stops with inspect, tag, provision and push, and in
neither run is the versioned destination image removed. -/
theorem C8_latest_only_after_push_witness :
    mirror_target (fun i => decide (i = 1)) 0 ⟨true, false, false⟩
      (fun _ => some ⟨"q", "ns", "o"⟩) "h/p/i:t" "prod" =
      (false, [.manifestInspect "q/ns/p/i:t",
               .docker ["tag", "h/p/i:t", "q/ns/p/i:t"],
               .docker ["push", "q/ns/p/i:t"]], 3) ∧
    mirror_target (fun i => decide (1 ≤ i ∧ i ≤ 2)) 0 ⟨true, true, false⟩
      (fun _ => some ⟨"q", "ns", "o"⟩) "h/p/i:t" "prod" =
      (false, [.manifestInspect "q/ns/p/i:t",
               .docker ["tag", "h/p/i:t", "q/ns/p/i:t"],
               .quayCreate "p/i",
               .docker ["push", "q/ns/p/i:t"]], 4) ∧
    EngineCall.docker ["rmi", "q/ns/p/i:t"] ∉
      (mirror_target (fun i => decide (1 ≤ i ∧ i ≤ 2)) 0 ⟨true, true, false⟩
        (fun _ => some ⟨"q", "ns", "o"⟩) "h/p/i:t" "prod").2.1 := by
  have h1 := C8_latest_only_after_push (fun i => decide (i = 1)) 0
    ⟨true, false, false⟩ (fun _ => some ⟨"q", "ns", "o"⟩) "h/p/i:t" "prod"
    ⟨"q", "ns", "o"⟩ rfl (by decide) (by decide)
  have h2 := C8_latest_only_after_push (fun i => decide (1 ≤ i ∧ i ≤ 2)) 0
    ⟨true, true, false⟩ (fun _ => some ⟨"q", "ns", "o"⟩) "h/p/i:t" "prod"
    ⟨"q", "ns", "o"⟩ rfl (by decide) (by decide)
  refine ⟨(h1.1 rfl).1 (by decide), ?_, ?_⟩
  · exact (h2.2.1 rfl (Or.inl (by decide))).1 (by decide)
  · exact h2.2.2.2 (fun i => decide (1 ≤ i ∧ i ≤ 2)) 0 ⟨true, true, false⟩
      ["q/ns/p/i:t"]

/-- C9: `image_exists_in_registry` answers false whenever the manifest
inspection times out, exits non-zero, or raises — an inconclusive check is
indistinguishable from "image absent" — and on a false answer both flows
proceed: `sync_image` goes on to pull (and onward) and `mirror_target` goes on
to tag (and onward) the destination reference. -/
theorem C9_inconclusive_check (returncode : Int) (env : Env) (k : Nat)
    (prod_image dr_image source_img target_env : String) (cfg : OperationConfig)
    (registries : String → Option RegistryConfig)
    (registry_config : RegistryConfig) :
    image_exists_in_registry .timeoutExpired = false ∧
    image_exists_in_registry .otherException = false ∧
    (returncode ≠ 0 → image_exists_in_registry (.exit returncode) = false) ∧
    (env k = false →
      ∃ rest, (sync_image env k prod_image dr_image).2.1 =
        .manifestInspect dr_image :: .docker ["pull", prod_image] :: rest) ∧
    (env k = false → registries target_env = some registry_config →
      ∃ rest, (mirror_target env k cfg registries source_img target_env).2.1 =
        .manifestInspect (get_destination_image_path source_img registry_config).1 ::
          .docker ["tag", source_img,
            (get_destination_image_path source_img registry_config).1] :: rest) := by
  refine ⟨rfl, rfl, ?_, ?_, ?_⟩
  · intro h
    simpa [image_exists_in_registry] using h
  · intro h
    cases h1 : env (k + 1) with
    | false => exact ⟨[], by simp [sync_image, h, h1]⟩
    | true =>
      cases h2 : env (k + 2) with
      | false =>
        exact ⟨[.docker ["tag", prod_image, dr_image],
                .docker ["rmi", "-f", prod_image]],
          by simp [sync_image, cleanup_local_images, h, h1, h2]⟩
      | true =>
        cases h3 : env (k + 3) with
        | false =>
          exact ⟨[.docker ["tag", prod_image, dr_image], .docker ["push", dr_image],
                  .docker ["rmi", "-f", prod_image], .docker ["rmi", "-f", dr_image]],
            by simp [sync_image, cleanup_local_images, h, h1, h2, h3]⟩
        | true =>
          cases h4 : env (k + 4) with
          | false =>
            exact ⟨[.docker ["tag", prod_image, dr_image], .docker ["push", dr_image],
                    .manifestInspect dr_image, .docker ["rmi", "-f", prod_image],
                    .docker ["rmi", "-f", dr_image]],
              by simp [sync_image, cleanup_local_images, h, h1, h2, h3, h4]⟩
          | true =>
            exact ⟨[.docker ["tag", prod_image, dr_image], .docker ["push", dr_image],
                    .manifestInspect dr_image, .docker ["rmi", "-f", prod_image],
                    .docker ["rmi", "-f", dr_image]],
              by simp [sync_image, cleanup_local_images, h, h1, h2, h3, h4]⟩
  · intro h hreg
    cases h1 : env (k + 1) with
    | false => exact ⟨[], by simp [mirror_target, hreg, h, h1]⟩
    | true =>
      cases hc : cfg.create_repos_if_not_exists with
      | false =>
        exact ⟨(mirror_target_push_phase env (k + 2) source_img
            (get_destination_image_path source_img registry_config).1
            (get_destination_image_path source_img registry_config).2.1).2.1,
          by simp [mirror_target, hreg, h, h1, hc]⟩
      | true =>
        cases hp : (!env (k + 2) && !cfg.continue_on_error) with
        | false =>
          exact ⟨.quayCreate
              (get_destination_image_path source_img registry_config).2.2.1 ::
            (mirror_target_push_phase env (k + 3) source_img
              (get_destination_image_path source_img registry_config).1
              (get_destination_image_path source_img registry_config).2.1).2.1,
            by simp [mirror_target, hreg, h, h1, hc, hp]⟩
        | true =>
          exact ⟨[.quayCreate
              (get_destination_image_path source_img registry_config).2.2.1],
            by simp [mirror_target, hreg, h, h1, hc, hp]⟩

/-- Witness for C9: a run whose first check answers false proceeds to the pull
and the tag calls in the two flows. -/
theorem C9_inconclusive_check_witness :
    image_exists_in_registry (.exit 1) = false ∧
    (∃ rest, (sync_image (fun i => decide (0 < i)) 0 "p" "d").2.1 =
      .manifestInspect "d" :: .docker ["pull", "p"] :: rest) ∧
    (∃ rest, (mirror_target (fun i => decide (0 < i)) 0 ⟨true, false, false⟩
        (fun _ => some ⟨"q", "ns", "o"⟩) "h/p/i:t" "prod").2.1 =
      .manifestInspect "q/ns/p/i:t" ::
        .docker ["tag", "h/p/i:t", "q/ns/p/i:t"] :: rest) := by
  have h := C9_inconclusive_check 1 (fun i => decide (0 < i)) 0 "p" "d"
    "h/p/i:t" "prod" ⟨true, false, false⟩ (fun _ => some ⟨"q", "ns", "o"⟩)
    ⟨"q", "ns", "o"⟩
  exact ⟨h.2.2.1 (by decide), h.2.2.2.1 (by decide), h.2.2.2.2 (by decide) rfl⟩

/-- C10: in the bulk sync run controller, a pair for which `sync_image`
returned success is counted successful exactly when the follow-up manifest
inspection answers true, and skipped otherwise; a failed sync is counted
failed; consequently a pair skipped because the destination tag already
existed is counted successful (not skipped) whenever the follow-up inspection
succeeds. -/
theorem C10_sync_success_counting (env : Env) (k : Nat)
    (prod_image dr_image : String) :
    ((sync_image env k prod_image dr_image).1 = true →
      env (sync_image env k prod_image dr_image).2.2 = true →
      sync_count_step env k prod_image dr_image =
        ((1, 0, 0), (sync_image env k prod_image dr_image).2.2 + 1)) ∧
    ((sync_image env k prod_image dr_image).1 = true →
      env (sync_image env k prod_image dr_image).2.2 = false →
      sync_count_step env k prod_image dr_image =
        ((0, 1, 0), (sync_image env k prod_image dr_image).2.2 + 1)) ∧
    ((sync_image env k prod_image dr_image).1 = false →
      sync_count_step env k prod_image dr_image =
        ((0, 0, 1), (sync_image env k prod_image dr_image).2.2)) ∧
    (env k = true → env (k + 1) = true →
      sync_count_step env k prod_image dr_image = ((1, 0, 0), k + 2)) := by
  refine ⟨?_, ?_, ?_, ?_⟩
  · intro h1 h2
    simp [sync_count_step, h1, h2]
  · intro h1 h2
    simp [sync_count_step, h1, h2]
  · intro h1
    simp [sync_count_step, h1]
  · intro h1 h2
    have hs : sync_image env k prod_image dr_image =
        (true, [.manifestInspect dr_image], k + 1) := by
      simp [sync_image, h1]
    simp [sync_count_step, hs, h2]

/-- Witness for C10: a pair whose destination tag already exists, with the
follow-up inspection succeeding, is counted in the successful statistic. -/
theorem C10_sync_success_counting_witness :
    sync_count_step (fun _ => true) 0 "p" "d" = ((1, 0, 0), 2) :=
  (C10_sync_success_counting (fun _ => true) 0 "p" "d").2.2.2 rfl rfl

end DockerBots
